import Mathlib

/- Verification of the gtm-mcp resource client and setup script.

The development shallowly embeds two Python modules:
  - gtm_client.py : the GTMClient class wrapping the Google Tag Manager
    v2 REST surface behind an authorized service handle;
  - setup.py : the configure_claude step that writes the gtm-mcp entry
    into the host configuration file.

Remote calls are modelled by an explicit transport parameter mapping each
request the client can issue to either a parsed JSON response or an
HttpError raised by the underlying request library.  Every client
operation returns the list of requests it issued together with its
result, so that theorems can speak both about the requests sent and
about the values or exceptions returned. -/

namespace GtmMcp

/-- Parsed JSON values, as produced by the json module and by the
response deserialization of the request library.  Objects are
order-preserving key-value lists, matching Python dict insertion
order. -/
inductive Json where
  | null : Json
  | bool : Bool → Json
  | num : Int → Json
  | str : String → Json
  | arr : List Json → Json
  | obj : List (String × Json) → Json

/-- Python dict lookup on an order-preserving key-value list (first
binding wins, as dict keys are unique after json parsing). -/
def lookupKey : List (String × Json) → String → Option Json
  | [], _ => none
  | (k0, v) :: rest, k => if k0 = k then some v else lookupKey rest k

/-- Python dict item assignment: replace the binding in place when the
key exists, append it otherwise (dict insertion-order semantics). -/
def setKey : List (String × Json) → String → Json → List (String × Json)
  | [], k, v => [(k, v)]
  | (k0, v0) :: rest, k, v =>
      if k0 = k then (k, v) :: rest else (k0, v0) :: setKey rest k v

/-- The string s has t as a substring (used for statements about error
messages carrying an operation name or a resource path). -/
def strContains (s t : String) : Prop := t.data <:+: s.data

instance (s t : String) : Decidable (strContains s t) :=
  List.decidableInfix t.data s.data

theorem strContains_append_left {s t : String} (r : String)
    (h : strContains s t) : strContains (s ++ r) t := by
  obtain ⟨u, v, huv⟩ := h
  exact ⟨u, v ++ r.data, by rw [String.data_append, ← huv]; simp⟩

theorem strContains_append_right {s t : String} (r : String)
    (h : strContains s t) : strContains (r ++ s) t := by
  obtain ⟨u, v, huv⟩ := h
  exact ⟨r.data ++ u, v, by rw [String.data_append, ← huv]; simp⟩

/-- The HttpError exception of the underlying request library: an
HTTP-status-carrying transport failure.  Only its string rendering
(what the Python f-string interpolation of the exception produces)
matters to the client, so it is modelled by that rendering. -/
structure HttpError where
  msg : String
deriving DecidableEq

/-- The exceptions that can cross the GTMClient method boundary.
httpError is a raw transport exception of the request library;
exception is the built-in generic Exception the client raises after
normalization; notFoundError stands for a hypothetical distinct
not-found error kind (named by the specification, present here so that
statements about it can be made); attributeError and typeError are the
built-in Python exceptions raised by attribute access or item
assignment on a value of the wrong type. -/
inductive PyExc where
  | httpError : HttpError → PyExc
  | exception : String → PyExc
  | notFoundError : String → PyExc
  | attributeError : PyExc
  | typeError : PyExc

/-- One remote request of the GTM v2 surface, as issued by the chained
resource builders of the service handle.  Each constructor records the
parameters the client passes (parent or path string, and the request
body for mutating calls). -/
inductive Request where
  | accountsList : Request
  | containersList : String → Request
  | containerGet : String → Request
  | workspacesList : String → Request
  | tagsList : String → Request
  | tagGet : String → Request
  | tagCreate : String → Json → Request
  | tagUpdate : String → Json → Request
  | triggersList : String → Request
  | triggerCreate : String → Json → Request
  | variablesList : String → Request
  | variableGet : String → Request
  | variableCreate : String → Json → Request
  | variableUpdate : String → Json → Request
  | versionCreate : String → Json → Request
  | versionPublish : String → Request

/-- The authorized service handle: execute() on a built request either
returns the deserialized JSON response or raises HttpError. -/
def Transport := Request → Except HttpError Json

/-- One remote call inside a try block whose except clause catches
HttpError and re-raises Exception with the given message prefix
followed by the rendering of the caught error.  The first component is
the list of requests issued. -/
def callRemote (svc : Transport) (r : Request) (failMsg : String) :
    List Request × Except PyExc Json :=
  ([r], match svc r with
        | .ok v => .ok v
        | .error e => .error (.exception (failMsg ++ e.msg)))

/-- One remote list call inside a try block: on success the code runs
response.get(key, []) which returns the value at key, the empty list
when the key is absent, and raises AttributeError when the response is
not a dict (that exception is not an HttpError and is not caught). -/
def listRemote (svc : Transport) (r : Request) (key : String)
    (failMsg : String) : List Request × Except PyExc Json :=
  ([r], match svc r with
        | .ok resp =>
            match resp with
            | .obj kvs => .ok ((lookupKey kvs key).getD (.arr []))
            | _ => .error .attributeError
        | .error e => .error (.exception (failMsg ++ e.msg)))

/-- GTMClient.list_accounts. -/
def list_accounts (svc : Transport) : List Request × Except PyExc Json :=
  listRemote svc .accountsList "account" "Failed to list accounts: "

/-- GTMClient.list_containers: takes a bare account id and builds the
parent string accounts/ followed by the id itself. -/
def list_containers (svc : Transport) (account_id : String) :
    List Request × Except PyExc Json :=
  listRemote svc (.containersList ("accounts/" ++ account_id)) "container"
    "Failed to list containers: "

/-- GTMClient.get_container. -/
def get_container (svc : Transport) (container_path : String) :
    List Request × Except PyExc Json :=
  callRemote svc (.containerGet container_path) "Failed to get container: "

/-- GTMClient.list_workspaces. -/
def list_workspaces (svc : Transport) (container_path : String) :
    List Request × Except PyExc Json :=
  listRemote svc (.workspacesList container_path) "workspace"
    "Failed to list workspaces: "

/-- GTMClient.list_tags. -/
def list_tags (svc : Transport) (workspace_path : String) :
    List Request × Except PyExc Json :=
  listRemote svc (.tagsList workspace_path) "tag" "Failed to list tags: "

/-- GTMClient.get_tag. -/
def get_tag (svc : Transport) (tag_path : String) :
    List Request × Except PyExc Json :=
  callRemote svc (.tagGet tag_path) "Failed to get tag: "

/-- GTMClient.create_tag. -/
def create_tag (svc : Transport) (workspace_path : String)
    (tag_data : Json) : List Request × Except PyExc Json :=
  callRemote svc (.tagCreate workspace_path tag_data)
    "Failed to create tag: "

/-- GTMClient.update_tag. -/
def update_tag (svc : Transport) (tag_path : String) (tag_data : Json) :
    List Request × Except PyExc Json :=
  callRemote svc (.tagUpdate tag_path tag_data) "Failed to update tag: "

/-- GTMClient.list_triggers. -/
def list_triggers (svc : Transport) (workspace_path : String) :
    List Request × Except PyExc Json :=
  listRemote svc (.triggersList workspace_path) "trigger"
    "Failed to list triggers: "

/-- GTMClient.create_trigger. -/
def create_trigger (svc : Transport) (workspace_path : String)
    (trigger_data : Json) : List Request × Except PyExc Json :=
  callRemote svc (.triggerCreate workspace_path trigger_data)
    "Failed to create trigger: "

/-- GTMClient.list_variables. -/
def list_variables (svc : Transport) (workspace_path : String) :
    List Request × Except PyExc Json :=
  listRemote svc (.variablesList workspace_path) "variable"
    "Failed to list variables: "

/-- GTMClient.get_variable. -/
def get_variable (svc : Transport) (variable_path : String) :
    List Request × Except PyExc Json :=
  callRemote svc (.variableGet variable_path) "Failed to get variable: "

/-- GTMClient.create_variable. -/
def create_variable (svc : Transport) (workspace_path : String)
    (variable_data : Json) : List Request × Except PyExc Json :=
  callRemote svc (.variableCreate workspace_path variable_data)
    "Failed to create variable: "

/-- GTMClient.update_variable. -/
def update_variable (svc : Transport) (variable_path : String)
    (variable_data : Json) : List Request × Except PyExc Json :=
  callRemote svc (.variableUpdate variable_path variable_data)
    "Failed to update variable: "

/-- GTMClient.create_version: builds version_data as a dict with
exactly the fields name and notes, notes defaulting to the empty
string. -/
def create_version (svc : Transport) (workspace_path : String)
    (name : String) (notes : String := "") :
    List Request × Except PyExc Json :=
  callRemote svc
    (.versionCreate workspace_path
      (.obj [("name", .str name), ("notes", .str notes)]))
    "Failed to create version: "

/-- GTMClient.publish_version. -/
def publish_version (svc : Transport) (version_path : String) :
    List Request × Except PyExc Json :=
  callRemote svc (.versionPublish version_path)
    "Failed to publish version: "

/-- One fully applied invocation of a GTMClient operation: the method
together with the arguments the caller supplied. -/
inductive OpCall where
  | listAccounts : OpCall
  | listContainers : String → OpCall
  | getContainer : String → OpCall
  | listWorkspaces : String → OpCall
  | listTags : String → OpCall
  | getTag : String → OpCall
  | createTag : String → Json → OpCall
  | updateTag : String → Json → OpCall
  | listTriggers : String → OpCall
  | createTrigger : String → Json → OpCall
  | listVariables : String → OpCall
  | getVariable : String → OpCall
  | createVariable : String → Json → OpCall
  | updateVariable : String → Json → OpCall
  | createVersion : String → String → String → OpCall
  | publishVersion : String → OpCall

/-- Run one operation invocation against a transport. -/
def dispatch (svc : Transport) : OpCall → List Request × Except PyExc Json
  | .listAccounts => list_accounts svc
  | .listContainers a => list_containers svc a
  | .getContainer p => get_container svc p
  | .listWorkspaces p => list_workspaces svc p
  | .listTags p => list_tags svc p
  | .getTag p => get_tag svc p
  | .createTag p b => create_tag svc p b
  | .updateTag p b => update_tag svc p b
  | .listTriggers p => list_triggers svc p
  | .createTrigger p b => create_trigger svc p b
  | .listVariables p => list_variables svc p
  | .getVariable p => get_variable svc p
  | .createVariable p b => create_variable svc p b
  | .updateVariable p b => update_variable svc p b
  | .createVersion p n nt => create_version svc p n nt
  | .publishVersion p => publish_version svc p

/-- The single remote request an operation invocation issues. -/
def requestOf : OpCall → Request
  | .listAccounts => .accountsList
  | .listContainers a => .containersList ("accounts/" ++ a)
  | .getContainer p => .containerGet p
  | .listWorkspaces p => .workspacesList p
  | .listTags p => .tagsList p
  | .getTag p => .tagGet p
  | .createTag p b => .tagCreate p b
  | .updateTag p b => .tagUpdate p b
  | .listTriggers p => .triggersList p
  | .createTrigger p b => .triggerCreate p b
  | .listVariables p => .variablesList p
  | .getVariable p => .variableGet p
  | .createVariable p b => .variableCreate p b
  | .updateVariable p b => .variableUpdate p b
  | .createVersion p n nt =>
      .versionCreate p (.obj [("name", .str n), ("notes", .str nt)])
  | .publishVersion p => .versionPublish p

/-- The literal f-string message prefix of the except clause of each
operation, as written in the source. -/
def failMsgOf : OpCall → String
  | .listAccounts => "Failed to list accounts: "
  | .listContainers _ => "Failed to list containers: "
  | .getContainer _ => "Failed to get container: "
  | .listWorkspaces _ => "Failed to list workspaces: "
  | .listTags _ => "Failed to list tags: "
  | .getTag _ => "Failed to get tag: "
  | .createTag _ _ => "Failed to create tag: "
  | .updateTag _ _ => "Failed to update tag: "
  | .listTriggers _ => "Failed to list triggers: "
  | .createTrigger _ _ => "Failed to create trigger: "
  | .listVariables _ => "Failed to list variables: "
  | .getVariable _ => "Failed to get variable: "
  | .createVariable _ _ => "Failed to create variable: "
  | .updateVariable _ _ => "Failed to update variable: "
  | .createVersion _ _ _ => "Failed to create version: "
  | .publishVersion _ => "Failed to publish version: "

/-- The human-readable operation name carried in the message. -/
def opNameOf : OpCall → String
  | .listAccounts => "list accounts"
  | .listContainers _ => "list containers"
  | .getContainer _ => "get container"
  | .listWorkspaces _ => "list workspaces"
  | .listTags _ => "list tags"
  | .getTag _ => "get tag"
  | .createTag _ _ => "create tag"
  | .updateTag _ _ => "update tag"
  | .listTriggers _ => "list triggers"
  | .createTrigger _ _ => "create trigger"
  | .listVariables _ => "list variables"
  | .getVariable _ => "get variable"
  | .createVariable _ _ => "create variable"
  | .updateVariable _ _ => "update variable"
  | .createVersion _ _ _ => "create version"
  | .publishVersion _ => "publish version"

/-- The collection key a list operation reads with response.get, none
for the non-list operations. -/
def listKeyOf : OpCall → Option String
  | .listAccounts => some "account"
  | .listContainers _ => some "container"
  | .listWorkspaces _ => some "workspace"
  | .listTags _ => some "tag"
  | .listTriggers _ => some "trigger"
  | .listVariables _ => some "variable"
  | _ => none

theorem dispatch_eq (svc : Transport) (op : OpCall) :
    dispatch svc op =
      match listKeyOf op with
      | some k => listRemote svc (requestOf op) k (failMsgOf op)
      | none => callRemote svc (requestOf op) (failMsgOf op) := by
  cases op <;> rfl

theorem callRemote_trace (svc : Transport) (r : Request) (m : String) :
    (callRemote svc r m).1 = [r] := rfl

theorem listRemote_trace (svc : Transport) (r : Request) (k m : String) :
    (listRemote svc r k m).1 = [r] := rfl

theorem dispatch_trace (svc : Transport) (op : OpCall) :
    (dispatch svc op).1 = [requestOf op] := by
  rw [dispatch_eq]; cases listKeyOf op <;> rfl

theorem callRemote_error (svc : Transport) (r : Request) (m : String)
    (e : HttpError) (h : svc r = .error e) :
    (callRemote svc r m).2 = .error (.exception (m ++ e.msg)) := by
  simp [callRemote, h]

theorem listRemote_error (svc : Transport) (r : Request) (k m : String)
    (e : HttpError) (h : svc r = .error e) :
    (listRemote svc r k m).2 = .error (.exception (m ++ e.msg)) := by
  simp [listRemote, h]

theorem dispatch_error (svc : Transport) (op : OpCall) (e : HttpError)
    (h : svc (requestOf op) = .error e) :
    (dispatch svc op).2 = .error (.exception (failMsgOf op ++ e.msg)) := by
  rw [dispatch_eq]
  cases listKeyOf op
  · exact callRemote_error svc _ _ e h
  · exact listRemote_error svc _ _ _ e h

theorem callRemote_not_http (svc : Transport) (r : Request) (m : String)
    (e : HttpError) : (callRemote svc r m).2 ≠ .error (.httpError e) := by
  unfold callRemote
  cases svc r <;> simp

theorem listRemote_not_http (svc : Transport) (r : Request) (k m : String)
    (e : HttpError) :
    (listRemote svc r k m).2 ≠ .error (.httpError e) := by
  unfold listRemote
  cases h : svc r with
  | ok resp => cases resp <;> simp
  | error e2 => simp

theorem dispatch_not_http (svc : Transport) (op : OpCall) (e : HttpError) :
    (dispatch svc op).2 ≠ .error (.httpError e) := by
  rw [dispatch_eq]
  cases listKeyOf op
  · exact callRemote_not_http svc _ _ e
  · exact listRemote_not_http svc _ _ _ e

theorem failMsg_carries_opName (op : OpCall) :
    strContains (failMsgOf op) (opNameOf op) := by
  cases op <;> simp only [failMsgOf, opNameOf] <;> decide

/-- The SCOPES constant of gtm_client.py. -/
def SCOPES : List String := [
  "https://www.googleapis.com/auth/tagmanager.delete.containers",
  "https://www.googleapis.com/auth/tagmanager.edit.containers",
  "https://www.googleapis.com/auth/tagmanager.edit.containerversions",
  "https://www.googleapis.com/auth/tagmanager.manage.accounts",
  "https://www.googleapis.com/auth/tagmanager.manage.users",
  "https://www.googleapis.com/auth/tagmanager.publish",
  "https://www.googleapis.com/auth/tagmanager.readonly"
]

/-- The scopes list of get_user_credentials in setup.py: the broader
cloud-platform scopes used only by the setup flow. -/
def setup_scopes : List String := [
  "https://www.googleapis.com/auth/cloud-platform",
  "https://www.googleapis.com/auth/cloudplatformprojects"
]

/-- The GTMClient instance state: the authorized service handle
produced by _authenticate in the constructor, and the credentials
field the constructor sets to None.  These are the only attributes the
class ever assigns. -/
structure GTMClient where
  service : Transport
  credentials : Option Json

/-- GTMClient.__init__, with the service handle returned by the
external _authenticate call passed in as a parameter. -/
def GTMClient.init (service : Transport) : GTMClient :=
  { service := service, credentials := none }

/-- State-passing form of a method invocation: every method body only
reads self.service and assigns no attribute of self, so the embedding
returns the receiver together with the result of running the operation
against the held service handle. -/
def GTMClient.invoke (c : GTMClient) (op : OpCall) :
    GTMClient × (List Request × Except PyExc Json) :=
  (c, dispatch c.service op)

theorem lookupKey_setKey_self (kvs : List (String × Json)) (k : String)
    (v : Json) : lookupKey (setKey kvs k v) k = some v := by
  induction kvs with
  | nil => simp [setKey, lookupKey]
  | cons hd rest ih =>
      obtain ⟨k0, v0⟩ := hd
      by_cases h : k0 = k <;> simp [setKey, lookupKey, h, ih]

theorem lookupKey_setKey_other (kvs : List (String × Json))
    (k k2 : String) (v : Json) (h : k2 ≠ k) :
    lookupKey (setKey kvs k v) k2 = lookupKey kvs k2 := by
  induction kvs with
  | nil => simp [setKey, lookupKey, Ne.symm h]
  | cons hd rest ih =>
      obtain ⟨k0, v0⟩ := hd
      by_cases h0 : k0 = k
      · subst h0
        simp [setKey, lookupKey, Ne.symm h]
      · simp [setKey, lookupKey, h0, ih]

/-- Python attribute-style access config.get(key, default): defined on
a dict, raises AttributeError on any other json value. -/
def pyGet (j : Json) (k : String) (d : Json) : Except PyExc Json :=
  match j with
  | .obj kvs => .ok ((lookupKey kvs k).getD d)
  | _ => .error .attributeError

/-- Python membership test (k in j) for the json values json.load can
produce: key containment for a dict, element equality for a list,
substring containment for a string, TypeError otherwise. -/
def pyContains (k : String) (j : Json) : Except PyExc Bool :=
  match j with
  | .obj kvs => .ok (lookupKey kvs k).isSome
  | .arr xs =>
      .ok (xs.any fun x =>
        match x with
        | .str s => decide (s = k)
        | _ => false)
  | .str s => .ok (decide (strContains s k))
  | _ => .error .typeError

/-- The state of the host configuration file before configure_claude
runs: absent, present but not valid JSON, or parsed JSON. -/
inductive FileState where
  | missing : FileState
  | invalid : FileState
  | parsed : Json → FileState

/-- The credentials dict configure_claude receives. -/
structure SetupCreds where
  project_id : String
  client_id : String
  client_secret : String

/-- The gtm-mcp entry configure_claude installs: command gtm-mcp plus
the three environment variables, in source order. -/
def gtmEntry (c : SetupCreds) : Json :=
  .obj [("command", .str "gtm-mcp"),
        ("env", .obj [("GTM_CLIENT_ID", .str c.client_id),
                      ("GTM_CLIENT_SECRET", .str c.client_secret),
                      ("GTM_PROJECT_ID", .str c.project_id)])]

/-- The config value after the load step of configure_claude: a fresh
dict with an empty mcpServers registry when the file is missing or
fails to parse, the parsed json otherwise. -/
def loadConfig : FileState → Json
  | .missing => .obj [("mcpServers", .obj [])]
  | .invalid => .obj [("mcpServers", .obj [])]
  | .parsed j => j

/-- configure_claude of setup.py.  The interactive update prompt is
modelled by approveUpdate; a run that returns False without writing is
modelled as .ok none, and a completed run as .ok (some w) where w is
the json document written back to the config file.  An uncaught Python
exception (config without a get attribute, membership test or item
assignment on a non-container) is the .error case. -/
def configure_claude (file : FileState) (approveUpdate : Bool)
    (creds : SetupCreds) : Except PyExc (Option Json) :=
  let config := loadConfig file
  match pyGet config "mcpServers" (.obj []) with
  | .error e => .error e
  | .ok servers =>
    match pyContains "gtm-mcp" servers with
    | .error e => .error e
    | .ok already =>
      if already && !approveUpdate then
        .ok none
      else
        match config with
        | .obj kvs =>
          let kvs1 := if (lookupKey kvs "mcpServers").isSome then kvs
                      else setKey kvs "mcpServers" (.obj [])
          match lookupKey kvs1 "mcpServers" with
          | some (.obj skvs) =>
              .ok (some (.obj (setKey kvs1 "mcpServers"
                (.obj (setKey skvs "gtm-mcp" (gtmEntry creds))))))
          | some _ => .error .typeError
          | none => .error .typeError
        | _ => .error .attributeError

theorem callRemote_ok (svc : Transport) (r : Request) (m : String)
    (v : Json) (h : svc r = .ok v) : (callRemote svc r m).2 = .ok v := by
  simp [callRemote, h]

/-- Whether a result is a raised error of the hypothetical distinct
not-found kind. -/
def isNotFoundExc : Except PyExc Json → Bool
  | .error (.notFoundError _) => true
  | _ => false

theorem isNotFoundExc_callRemote (svc : Transport) (r : Request)
    (m : String) : isNotFoundExc (callRemote svc r m).2 = false := by
  unfold callRemote
  cases svc r <;> rfl

/-- A transport on which every request fails with the diagnostic
boom. -/
def svcFail : Transport := fun _ => .error { msg := "boom" }

/-- A transport on which every request succeeds with an empty response
object. -/
def svcEmptyObj : Transport := fun _ => .ok (.obj [])

/-- A transport that simulates a 404 on every request, with the
diagnostic rendering the request library produces (status plus the
requested resource path). -/
def svcVar404 : Transport :=
  fun _ => .error { msg := "404 accounts/1/variables/4 notFound" }

/-- A transport that echoes the request body of a create-version call
back as the response. -/
def svcEcho : Transport := fun r =>
  match r with
  | .versionCreate _ b => .ok b
  | _ => .ok .null

/-- Claim C1: every GTMClient operation catches an HTTP-status-carrying
transport error raised by the remote call and re-raises the single
uniform Exception kind whose message carries the operation name and
the underlying diagnostic, and no operation lets a raw transport
exception escape. -/
theorem error_normalization (svc : Transport) (op : OpCall) :
    (∀ e : HttpError, svc (requestOf op) = .error e →
      (dispatch svc op).2 = .error (.exception (failMsgOf op ++ e.msg)) ∧
      strContains (failMsgOf op ++ e.msg) (opNameOf op) ∧
      strContains (failMsgOf op ++ e.msg) e.msg) ∧
    (∀ e : HttpError, (dispatch svc op).2 ≠ .error (.httpError e)) := by
  constructor
  · intro e h
    refine ⟨dispatch_error svc op e h,
      strContains_append_left _ (failMsg_carries_opName op),
      strContains_append_right _ ⟨[], [], by simp⟩⟩
  · intro e
    exact dispatch_not_http svc op e

theorem error_normalization_witness :
    (dispatch svcFail (.getTag "t")).2 =
      .error (.exception ("Failed to get tag: " ++ "boom")) :=
  ((error_normalization svcFail (.getTag "t")).1 { msg := "boom" } rfl).1

/-- Claim C2: every list operation returns an empty sequence, never an
absent or null result, when the server response omits the collection
key. -/
theorem list_empty_collection (svc : Transport) (op : OpCall)
    (k : String) (hk : listKeyOf op = some k)
    (kvs : List (String × Json))
    (hresp : svc (requestOf op) = .ok (.obj kvs))
    (hnone : lookupKey kvs k = none) :
    (dispatch svc op).2 = .ok (.arr []) := by
  rw [dispatch_eq, hk]
  simp [listRemote, hresp, hnone]

theorem list_empty_collection_witness :
    (dispatch svcEmptyObj (.listTags "ws")).2 = .ok (.arr []) :=
  list_empty_collection svcEmptyObj (.listTags "ws") "tag" rfl [] rfl rfl

/-- Claim C3: a transport failure of get_variable surfaces as exactly
one normalized error, raised from the single request the operation
issued, carrying the string variable and, whenever the transport
diagnostic names the requested path (as the HttpError rendering of the
request library does), the original path as well; no raw exception
kind leaks. -/
theorem get_variable_normalized (svc : Transport) (path : String)
    (e : HttpError) (h : svc (.variableGet path) = .error e) :
    (get_variable svc path).1 = [.variableGet path] ∧
    (get_variable svc path).2 =
      .error (.exception ("Failed to get variable: " ++ e.msg)) ∧
    strContains ("Failed to get variable: " ++ e.msg) "variable" ∧
    (strContains e.msg path →
      strContains ("Failed to get variable: " ++ e.msg) path) := by
  refine ⟨rfl, callRemote_error svc _ _ e h, ?_, ?_⟩
  · exact strContains_append_left _ (by decide)
  · intro hp
    exact strContains_append_right _ hp

theorem get_variable_normalized_witness :
    (get_variable svcVar404 "accounts/1/variables/4").2 =
      .error (.exception ("Failed to get variable: " ++
        "404 accounts/1/variables/4 notFound")) ∧
    strContains
      ("Failed to get variable: " ++ "404 accounts/1/variables/4 notFound")
      "variable" ∧
    strContains
      ("Failed to get variable: " ++ "404 accounts/1/variables/4 notFound")
      "accounts/1/variables/4" :=
  let h := get_variable_normalized svcVar404 "accounts/1/variables/4"
    { msg := "404 accounts/1/variables/4 notFound" } rfl
  ⟨h.2.1, h.2.2.1, h.2.2.2 (by decide)⟩

/-- Claim C4 counterexample: on a simulated 404, get_variable raises
the generic normalized Exception, not a distinct not-found error
kind. -/
theorem get_no_distinct_notfound_cex :
    (get_variable svcVar404 "accounts/1/variables/4").2 =
      .error (.exception
        "Failed to get variable: 404 accounts/1/variables/4 notFound") ∧
    isNotFoundExc
      (get_variable svcVar404 "accounts/1/variables/4").2 = false :=
  ⟨rfl, rfl⟩

/-- Claim C4 as amended: each get operation returns exactly the one
entity payload the server sends when the path resolves, and on any
transport failure, a non-resolving path included, it raises the single
generic normalized error kind, never a distinct not-found kind. -/
theorem get_ops_uniform_error (svc : Transport) (p : String) :
    ((∀ v, svc (.containerGet p) = .ok v →
        (get_container svc p).2 = .ok v) ∧
      ∀ e : HttpError, svc (.containerGet p) = .error e →
        (get_container svc p).2 =
          .error (.exception ("Failed to get container: " ++ e.msg)) ∧
        isNotFoundExc (get_container svc p).2 = false) ∧
    ((∀ v, svc (.tagGet p) = .ok v → (get_tag svc p).2 = .ok v) ∧
      ∀ e : HttpError, svc (.tagGet p) = .error e →
        (get_tag svc p).2 =
          .error (.exception ("Failed to get tag: " ++ e.msg)) ∧
        isNotFoundExc (get_tag svc p).2 = false) ∧
    ((∀ v, svc (.variableGet p) = .ok v →
        (get_variable svc p).2 = .ok v) ∧
      ∀ e : HttpError, svc (.variableGet p) = .error e →
        (get_variable svc p).2 =
          .error (.exception ("Failed to get variable: " ++ e.msg)) ∧
        isNotFoundExc (get_variable svc p).2 = false) := by
  refine ⟨⟨fun v h => callRemote_ok svc _ _ v h, fun e h => ?_⟩,
    ⟨fun v h => callRemote_ok svc _ _ v h, fun e h => ?_⟩,
    ⟨fun v h => callRemote_ok svc _ _ v h, fun e h => ?_⟩⟩ <;>
  exact ⟨callRemote_error svc _ _ e h, isNotFoundExc_callRemote svc _ _⟩

theorem get_ops_uniform_error_witness :
    (get_variable svcVar404 "v").2 =
      .error (.exception ("Failed to get variable: " ++
        "404 accounts/1/variables/4 notFound")) ∧
    isNotFoundExc (get_variable svcVar404 "v").2 = false :=
  (get_ops_uniform_error svcVar404 "v").2.2.2
    { msg := "404 accounts/1/variables/4 notFound" } rfl

/-- Claim C5 counterexample: list_containers does not pass the
caller-supplied string verbatim as the remote parent: fed the path
accounts/123 of an account payload, it requests the parent
accounts/accounts/123. -/
theorem list_parent_verbatim_cex :
    (list_containers svcEmptyObj "accounts/123").1 =
      [.containersList "accounts/accounts/123"] ∧
    "accounts/accounts/123" ≠ "accounts/123" :=
  ⟨rfl, by decide⟩

/-- Claim C5 as amended: list_workspaces, list_tags, list_triggers and
list_variables pass the caller-supplied parent path verbatim to the
remote call; list_accounts takes no parent argument and issues the
bare accounts listing; list_containers takes a bare account id and
passes the parent string accounts/ followed by the id. -/
theorem list_parent_passthrough (svc : Transport) (p : String) :
    (list_workspaces svc p).1 = [.workspacesList p] ∧
    (list_tags svc p).1 = [.tagsList p] ∧
    (list_triggers svc p).1 = [.triggersList p] ∧
    (list_variables svc p).1 = [.variablesList p] ∧
    (list_containers svc p).1 = [.containersList ("accounts/" ++ p)] ∧
    (list_accounts svc).1 = [.accountsList] :=
  ⟨rfl, rfl, rfl, rfl, rfl, rfl⟩

/-- Claim C6: create_version issues one create-version request against
exactly the workspace path the caller supplied, with a body of exactly
the two fields name and notes in that order, notes defaulting to the
empty string when omitted, and returns the version payload echoed by
the server unmodified. -/
theorem create_version_request (svc : Transport) (p n nt : String) :
    (create_version svc p n nt).1 =
      [.versionCreate p (.obj [("name", .str n), ("notes", .str nt)])] ∧
    (∀ v, svc (.versionCreate p
        (.obj [("name", .str n), ("notes", .str nt)])) = .ok v →
      (create_version svc p n nt).2 = .ok v) ∧
    create_version svc p n = create_version svc p n "" := by
  exact ⟨rfl, fun v h => callRemote_ok svc _ _ v h, rfl⟩

theorem create_version_request_witness :
    (create_version svcEcho "ws" "v1" "my notes").2 =
      .ok (.obj [("name", .str "v1"), ("notes", .str "my notes")]) :=
  (create_version_request svcEcho "ws" "v1" "my notes").2.1 _ rfl

/-- Claim C7: a single invocation of any GTMClient operation issues
exactly one remote request, and on failure the error surfaces exactly
once, immediately, with no retry of the remote call. -/
theorem single_call_no_retry (svc : Transport) (op : OpCall) :
    (dispatch svc op).1 = [requestOf op] ∧
    ∀ e : HttpError, svc (requestOf op) = .error e →
      (dispatch svc op).2 =
        .error (.exception (failMsgOf op ++ e.msg)) :=
  ⟨dispatch_trace svc op, fun e h => dispatch_error svc op e h⟩

theorem single_call_no_retry_witness :
    (dispatch svcFail (.publishVersion "v")).1 = [.versionPublish "v"] ∧
    (dispatch svcFail (.publishVersion "v")).2 =
      .error (.exception ("Failed to publish version: " ++ "boom")) :=
  ⟨(single_call_no_retry svcFail (.publishVersion "v")).1,
   (single_call_no_retry svcFail (.publishVersion "v")).2
     { msg := "boom" } rfl⟩

/-- Claim C8: the scope set of the resource client is the fixed
compile-time constant SCOPES of exactly seven GTM-specific scope
strings, and it contains neither of the broader cloud-platform scopes
of the setup flow. -/
theorem scopes_fixed_seven :
    SCOPES.length = 7 ∧
    SCOPES.all (fun s =>
      "https://www.googleapis.com/auth/tagmanager.".data.isPrefixOf
        s.data) = true ∧
    setup_scopes.all (fun s => !(SCOPES.contains s)) = true :=
  ⟨rfl, by decide, by decide⟩

/-- Claim C9: every GTMClient operation, on success and on failure,
leaves the instance state unchanged: the service handle and the
credentials field hold exactly the values they held before the
call. -/
theorem client_state_unchanged (c : GTMClient) (op : OpCall) :
    (c.invoke op).1.service = c.service ∧
    (c.invoke op).1.credentials = c.credentials ∧
    (c.invoke op).2 = dispatch c.service op :=
  ⟨rfl, rfl, rfl⟩

/-- Concrete credentials for the setup examples. -/
def creds0 : SetupCreds :=
  { project_id := "proj", client_id := "id", client_secret := "secret" }

/-- Claim C10 counterexample: a host configuration file that parses as
JSON but not as an object (here the document: an empty array) makes
configure_claude raise AttributeError at the mcpServers lookup, so no
configuration is written back at all. -/
theorem configure_claude_nonobject_cex :
    configure_claude (.parsed (.arr [])) true creds0 =
      .error .attributeError :=
  rfl

/-- Claim C10 as amended: for an existing configuration file parsing
as a JSON object, whenever configure_claude completes and writes a
configuration back, the written document is an object in which every
top-level key other than mcpServers, and every mcpServers entry other
than gtm-mcp, is exactly as before, and gtm-mcp is set to the fixed
entry (command gtm-mcp plus the three environment variables); a file
whose JSON is not an object makes the function raise before writing
anything. -/
theorem configure_claude_frame (kvs : List (String × Json))
    (approve : Bool) (creds : SetupCreds) (w : Json)
    (h : configure_claude (.parsed (.obj kvs)) approve creds =
      .ok (some w)) :
    ∃ wkvs, w = .obj wkvs ∧
      (∀ k, k ≠ "mcpServers" → lookupKey wkvs k = lookupKey kvs k) ∧
      ∃ skvs, lookupKey wkvs "mcpServers" = some (.obj skvs) ∧
        lookupKey skvs "gtm-mcp" = some (gtmEntry creds) ∧
        ∀ k, k ≠ "gtm-mcp" →
          lookupKey skvs k =
            (match lookupKey kvs "mcpServers" with
             | some (.obj s) => lookupKey s k
             | _ => none) := by
  cases h0 : lookupKey kvs "mcpServers" with
  | none =>
      simp [configure_claude, loadConfig, pyGet, pyContains, h0,
        lookupKey, setKey, lookupKey_setKey_self] at h
      refine ⟨setKey (setKey kvs "mcpServers" (.obj []))
        "mcpServers" (.obj [("gtm-mcp", gtmEntry creds)]), ?_, ?_, ?_⟩
      · exact h.symm
      · intro k hk
        rw [lookupKey_setKey_other _ _ _ _ hk,
          lookupKey_setKey_other _ _ _ _ hk]
      · refine ⟨[("gtm-mcp", gtmEntry creds)],
          lookupKey_setKey_self _ _ _, by simp [lookupKey], ?_⟩
        intro k hk
        simp [lookupKey, Ne.symm hk]
  | some j =>
      cases j with
      | obj skvs0 =>
          simp [configure_claude, loadConfig, pyGet, pyContains, h0] at h
          split at h
          · simp at h
          · simp at h
            refine ⟨setKey kvs "mcpServers"
              (.obj (setKey skvs0 "gtm-mcp" (gtmEntry creds))),
              h.symm, ?_, ?_⟩
            · intro k hk
              rw [lookupKey_setKey_other _ _ _ _ hk]
            · refine ⟨setKey skvs0 "gtm-mcp" (gtmEntry creds),
                lookupKey_setKey_self _ _ _,
                lookupKey_setKey_self _ _ _, ?_⟩
              intro k hk
              rw [lookupKey_setKey_other _ _ _ _ hk]
      | null =>
          simp [configure_claude, loadConfig, pyGet, pyContains, h0] at h
      | bool b =>
          simp [configure_claude, loadConfig, pyGet, pyContains, h0] at h
      | num n =>
          simp [configure_claude, loadConfig, pyGet, pyContains, h0] at h
      | str s =>
          simp [configure_claude, loadConfig, pyGet, pyContains, h0] at h
          split at h <;> simp at h
      | arr xs =>
          simp [configure_claude, loadConfig, pyGet, pyContains, h0] at h
          split at h <;> simp at h

theorem configure_claude_frame_witness :
    ∃ wkvs,
      (Json.obj [("theme", .str "dark"),
        ("mcpServers", .obj [("gtm-mcp", gtmEntry creds0)])]) =
          .obj wkvs ∧
      (∀ k, k ≠ "mcpServers" →
        lookupKey wkvs k = lookupKey [("theme", Json.str "dark")] k) ∧
      ∃ skvs, lookupKey wkvs "mcpServers" = some (.obj skvs) ∧
        lookupKey skvs "gtm-mcp" = some (gtmEntry creds0) ∧
        ∀ k, k ≠ "gtm-mcp" → lookupKey skvs k = none :=
  configure_claude_frame [("theme", .str "dark")] true creds0 _ rfl

end GtmMcp
